import Mathlib

/-!
# Verification of the smooth-scroll animation engine

Shallow embedding of `src/smooth-scroll.js` (AanZee/smooth-scroll).
JavaScript numbers are modelled as exact rationals (`ℚ`); DOM elements are
modelled by their `offsetTop` / `offsetParent` chain; the browser viewport is
an ideal scroll register that stores exactly the offset the last
`root.scrollTo(0, Math.floor(position))` call requested.
-/

namespace SmoothScroll

/-- The module's global `settings` object (lines 27-31 of the source). -/
structure Settings where
  speed : ℚ          -- px / second
  easing : String
  offset : ℚ         -- fraction of viewport height
deriving Repr

/-- The default configuration: `{ speed: 4000, easing: 'easeInOutCubic', offset: 1/20 }`. -/
def defaultSettings : Settings :=
  { speed := 4000, easing := "easeInOutCubic", offset := 1/20 }

/-- `easingPattern(type, time)` (lines 41-45).  For `'easeInOutCubic'` the
source computes `time < 0.5 ? 4*time*time*time : (time-1)*(2*time-2)*(2*time-2)+1`
into `pattern`; the final `return pattern || time` yields `time` whenever
`pattern` is `undefined` (unknown type) or `0` (JavaScript falsiness). -/
def easingPattern (type : String) (time : ℚ) : ℚ :=
  if type = "easeInOutCubic" then
    let pat : ℚ :=
      if time < 1/2 then 4 * time * time * time
      else (time - 1) * (2 * time - 2) * (2 * time - 2) + 1
    if pat = 0 then time else pat
  else time

/-- A DOM element as the geometry code sees it: its `offsetTop` and its
`offsetParent` chain.  `root` is an element whose `offsetParent` is `null`. -/
inductive Elem where
  | root (offsetTop : ℚ)
  | node (offsetTop : ℚ) (parent : Elem)
deriving Repr

/-- The element's `offsetParent` (`null` becomes `none`). -/
def Elem.offsetParent : Elem → Option Elem
  | .root _ => none
  | .node _ p => some p

/-- The element's `offsetTop`. -/
def Elem.offsetTop : Elem → ℚ
  | .root t => t
  | .node t _ => t

/-- The `do { location += anchor.offsetTop; anchor = anchor.offsetParent; }
while (anchor)` accumulation of `getEndLocation` (lines 140-143): the body adds
the current element's `offsetTop` before testing the parent, so every element
of the chain contributes, the last (parentless) one included. -/
def chainOffsetSum : Elem → ℚ
  | .root t => t
  | .node t p => t + chainOffsetSum p

/-- `getEndLocation(anchor)` (lines 137-147): `location` stays `0` when
`anchor.offsetParent` is `null`/falsy; otherwise the do-while loop accumulates
`chainOffsetSum`; the result is clamped from below at `0`. -/
def getEndLocation (anchor : Elem) : ℚ :=
  match anchor with
  | .root _ => 0
  | .node _ _ =>
    let location := chainOffsetSum anchor
    if location ≥ 0 then location else 0

/-- The six height candidates `getDocumentHeight` (lines 154-160) reads. -/
structure DocMetrics where
  bodyScrollHeight : ℚ
  docScrollHeight : ℚ
  bodyOffsetHeight : ℚ
  docOffsetHeight : ℚ
  bodyClientHeight : ℚ
  docClientHeight : ℚ
deriving Repr

/-- `getDocumentHeight()` (lines 154-160): maximum of the six candidates. -/
def getDocumentHeight (m : DocMetrics) : ℚ :=
  max (max (max m.bodyScrollHeight m.docScrollHeight)
           (max m.bodyOffsetHeight m.docOffsetHeight))
      (max m.bodyClientHeight m.docClientHeight)

/-- `parseInt(q, 10)` applied to a JavaScript number rendered in plain decimal
notation: the digits before the decimal point, i.e. truncation toward zero. -/
def jsParseInt (q : ℚ) : ℤ :=
  if 0 ≤ q then ⌊q⌋ else -⌊-q⌋

/-- `timeToAnimate = distance / parseInt(settings.speed, 10) * 1000`
(line 63).  The numerator is the signed `distance`, not its absolute value. -/
def timeToAnimate (dist speed : ℚ) : ℚ :=
  dist / (jsParseInt speed : ℚ) * 1000

/-- The values a run of `scrollTo` freezes at call time (lines 53-63) plus the
ambient browser quantities the loop re-reads on every tick.  `innerHeight`
(`root.innerHeight`, read live in `stopAnimateScroll`) is assumed constant over
the run: no window resize happens mid-animation. -/
structure RunEnv where
  startLocation : ℚ      -- root.pageYOffset at call time
  endLocation : ℚ        -- getEndLocation(destination) - viewportHeight * offset
  documentHeight : ℚ     -- getDocumentHeight() at call time
  viewportHeight : ℚ     -- max(clientHeight, innerHeight) at call time
  innerHeight : ℚ        -- root.innerHeight, re-read each tick
  easing : String        -- settings.easing
  timeToAnimate : ℚ      -- distance / parseInt(settings.speed, 10) * 1000
  hasCallback : Bool     -- whether a callback argument was supplied
deriving Repr

/-- `distance = endLocation - startLocation` (line 58). -/
def RunEnv.distance (env : RunEnv) : ℚ :=
  env.endLocation - env.startLocation

/-- The page that `scrollTo` reads from the browser at call time. -/
structure Page where
  pageYOffset : ℚ        -- root.pageYOffset
  docClientHeight : ℚ    -- document.documentElement.clientHeight
  innerHeight : ℚ        -- window.innerHeight
  doc : DocMetrics
deriving Repr

/-- `scrollTo(destination, callback)` setup (lines 52-63): reads the page,
computes `endLocation`, `distance` and `timeToAnimate`, and (line 118) starts
the 16ms interval.  `viewportHeight = max(clientHeight, innerHeight || 0)`;
`innerHeight || 0` equals `innerHeight` whenever the latter is a number, `0`
being its own fallback. -/
def scrollTo (page : Page) (settings : Settings) (destination : Elem)
    (hasCallback : Bool) : RunEnv :=
  let startLocation := page.pageYOffset
  let documentHeight := getDocumentHeight page.doc
  let viewportHeight := max page.docClientHeight page.innerHeight
  let endLoc := getEndLocation destination - viewportHeight * settings.offset
  { startLocation := startLocation
    endLocation := endLoc
    documentHeight := documentHeight
    viewportHeight := viewportHeight
    innerHeight := page.innerHeight
    easing := settings.easing
    timeToAnimate := timeToAnimate (endLoc - startLocation) settings.speed
    hasCallback := hasCallback }

/-- The mutable closure state of one run: `timeLapsed`, the viewport's scroll
register (set by `root.scrollTo(0, Math.floor(position))`), whether
`clearInterval` has fired, how often the callback ran, and whether
`destination.focus()` was called. -/
structure RunState where
  timeLapsed : ℚ
  pageYOffset : ℚ
  done : Bool
  callbackCount : ℕ
  focused : Bool
deriving Repr

/-- State at `startAnimateScroll` (line 118), before the first tick. -/
def initState (env : RunEnv) : RunState :=
  { timeLapsed := 0
    pageYOffset := env.startLocation
    done := false
    callbackCount := 0
    focused := false }

/-- `percentage = timeLapsed / timeToAnimate; percentage = percentage > 1 ? 1
: percentage` (lines 71-72).  When `timeToAnimate` is `0` JavaScript yields
`+Infinity` (the loop's `timeLapsed` is always positive), which the next line
clamps to `1`; the first branch bakes that in. -/
def tickPercentage (env : RunEnv) (timeLapsed : ℚ) : ℚ :=
  let p := if env.timeToAnimate = 0 then 1 else timeLapsed / env.timeToAnimate
  if p > 1 then 1 else p

/-- `acceleration = easingPattern(settings.easing, percentage)` followed by the
sign correction `if (acceleration < 0) acceleration *= -1` (lines 75-78). -/
def tickAcceleration (env : RunEnv) (timeLapsed : ℚ) : ℚ :=
  let a := easingPattern env.easing (tickPercentage env timeLapsed)
  if a < 0 then -a else a

/-- `position = startLocation + (distance * acceleration)` (line 80). -/
def tickPosition (env : RunEnv) (timeLapsed : ℚ) : ℚ :=
  env.startLocation + env.distance * tickAcceleration env timeLapsed

/-- `stopAnimateScroll(position, endLocation, animationInterval)` condition
(line 94): `position == endLocation || currentLocation == endLocation ||
((root.innerHeight + currentLocation) >= documentHeight || position < 0)`.
Returns whether the interval is cleared. -/
def stopAnimateScroll (position endLocation currentLocation innerHeight
    documentHeight : ℚ) : Bool :=
  decide (position = endLocation) || decide (currentLocation = endLocation) ||
    (decide (innerHeight + currentLocation ≥ documentHeight) ||
      decide (position < 0))

/-- One call of `loopAnimateScroll` (lines 69-83): advance `timeLapsed` by 16,
compute the eased `position`, apply `root.scrollTo(0, Math.floor(position))`,
then run `stopAnimateScroll`, which on success clears the interval, focuses the
destination and invokes the callback if one was provided (lines 94-98). -/
def loopAnimateScroll (env : RunEnv) (s : RunState) : RunState :=
  let t := s.timeLapsed + 16
  let position := tickPosition env t
  let applied : ℚ := (⌊position⌋ : ℤ)
  let stop := stopAnimateScroll position env.endLocation applied
    env.innerHeight env.documentHeight
  { timeLapsed := t
    pageYOffset := applied
    done := stop
    callbackCount := s.callbackCount + (if stop && env.hasCallback then 1 else 0)
    focused := s.focused || stop }

/-- `n` firings of the 16ms interval: once `clearInterval` has run (`done`),
no further tick executes. -/
def runTicks (env : RunEnv) (s : RunState) : ℕ → RunState
  | 0 => s
  | n + 1 =>
    let prev := runTicks env s n
    if prev.done then prev else loopAnimateScroll env prev

/-- A JavaScript value as passed for `updateUrl`'s `url` parameter. -/
inductive JSVal where
  | bool (b : Bool)
  | str (s : String)
deriving Repr, DecidableEq

/-- JavaScript truthiness of such a value: `false` and the empty string are
falsy, every other boolean or string is truthy. -/
def JSVal.truthy : JSVal → Bool
  | .bool b => b
  | .str s => decide (s ≠ "")

/-- `updateUrl(anchor, url)` (lines 168-172): calls `history.pushState` iff
`history.pushState` exists and `url || url === 'true'` is truthy.  Returns
whether `pushState` was called, i.e. whether browser history changed. -/
def updateUrl (hasPushState : Bool) (url : JSVal) : Bool :=
  hasPushState && (url.truthy || decide (url = .str "true"))

/-- A clicked anchor element as `handler` sees it: `getAttribute('href')`
(`none` = `null`) and `dataset.smoothScroll` (`none` = attribute absent). -/
structure Anchor where
  href : Option String
  smoothScroll : Option String
deriving Repr

/-- The observable effects of one `handler` call. -/
structure HandlerResult where
  preventDefault : Bool                  -- e.preventDefault() ran
  scrollToCalled : Bool                  -- scrollTo was invoked
  timerStarted : Bool                    -- setInterval ran (inside scrollTo)
  clickCallback : Bool                   -- scrollTo got the click-synthesizing callback
  updateUrlArgs : Option (String × JSVal)  -- arguments of the updateUrl call
deriving Repr

/-- The `handler` result when the guard fails: nothing happens. -/
def HandlerResult.none : HandlerResult :=
  { preventDefault := false, scrollToCalled := false, timerStarted := false
    clickCallback := false, updateUrlArgs := Option.none }

/-- `handler(e)` (lines 178-202): proceeds only when `href` is truthy, begins
with `'#'` and `dataset.smoothScroll !== 'ignore'`; then, if
`getElementById(href.substr(1))` resolves (`resolveId`), calls
`e.preventDefault()`, `scrollTo` (whose line 118 starts the interval timer,
with the click-synthesizing callback iff the attribute equals `'click'`) and
`updateUrl(href, false)` (line 199). -/
def handler (a : Anchor) (resolveId : String → Bool) : HandlerResult :=
  match a.href with
  | Option.none => HandlerResult.none
  | some href =>
    if href ≠ "" ∧ (href.take 1 = "#") ∧ a.smoothScroll ≠ some "ignore" then
      if resolveId (href.drop 1) then
        { preventDefault := true
          scrollToCalled := true
          timerStarted := true
          clickCallback := a.smoothScroll = some "click"
          updateUrlArgs := some (href, .bool false) }
      else HandlerResult.none
    else HandlerResult.none

/-!
## Spec-worded definitions

These two definitions follow the specification's words rather than the source;
the theorems below compare them with the source-derived definitions.
-/

/-- The termination condition as the specification words it: the third
disjunct uses `viewportHeight` — "the value computed at call time as the
maximum of the document root's client height and the window's inner height" —
where the source's `stopAnimateScroll` reads `root.innerHeight`. -/
def specStopCond (position endLocation currentLocation viewportHeight
    documentHeight : ℚ) : Bool :=
  decide (position = endLocation) || decide (currentLocation = endLocation) ||
    (decide (viewportHeight + currentLocation ≥ documentHeight) ||
      decide (position < 0))

/-- `endLocation` as the specification words it: "sums the element's
offset-top through its chain of offset-parents until none remains …  Clamps
negative results to 0" — the clamped chain sum, with no special case for an
element whose `offsetParent` is `null`. -/
def specEndLocation (anchor : Elem) : ℚ :=
  if chainOffsetSum anchor ≥ 0 then chainOffsetSum anchor else 0

/-!
## Concrete fixtures

Small concrete pages, elements and runs used to evaluate the model. -/

/-- A page whose document-root client height (900) exceeds the window's inner
height (800), e.g. a window with a horizontal scrollbar quirk; the document is
1000px tall and the viewport starts at offset 100. -/
def pageTall : Page :=
  { pageYOffset := 100
    docClientHeight := 900
    innerHeight := 800
    doc := ⟨1000, 1000, 1000, 1000, 1000, 1000⟩ }

/-- A destination 273px into `pageTall`'s document: the adjusted
`endLocation` is 273 - 900/20 = 228, the distance 128 and the duration
128/4000·1000 = 32ms, so the first tick's percentage is exactly 1/2 and its
eased position exactly 100 + 128·(1/2) = 164. -/
def destTall : Elem := .node 273 (.root 0)

/-- The run `scrollTo(destTall, callback)` starts on `pageTall`. -/
def envTall : RunEnv := scrollTo pageTall defaultSettings destTall true

/-- A short viewport (400px) over a tall (8000px) document, starting at the
top. -/
def pageFar : Page :=
  { pageYOffset := 0
    docClientHeight := 400
    innerHeight := 400
    doc := ⟨8000, 8000, 8000, 8000, 8000, 8000⟩ }

/-- A destination 6420px into `pageFar`'s document, giving an adjusted
`endLocation` of 6400 and a 1600ms run at the default 4000px/s. -/
def destFar : Elem := .node 6420 (.root 0)

/-- The run `scrollTo(destFar, callback)` starts on `pageFar`. -/
def envFar : RunEnv := scrollTo pageFar defaultSettings destFar true

/-- A page already scrolled to offset 200 over a 2000px document. -/
def pageZero : Page :=
  { pageYOffset := 200
    docClientHeight := 800
    innerHeight := 800
    doc := ⟨2000, 2000, 2000, 2000, 2000, 2000⟩ }

/-- A destination whose adjusted `endLocation` (240 - 800/20 = 200) equals
`pageZero`'s current offset: the resulting run has `distance = 0`. -/
def destZero : Elem := .node 240 (.root 0)

/-- The `distance = 0` run `scrollTo(destZero, callback)` on `pageZero`. -/
def envZero : RunEnv := scrollTo pageZero defaultSettings destZero true

/-!
## Easing lemmas

On `[0, 1]` the `pattern || time` fallback of `easingPattern` is invisible:
the cubic pattern vanishes only at `time = 0`, where `time` is returned with
the same value. -/

lemma easing_cubic_eval {t : ℚ} (h0 : 0 ≤ t) (h1 : t ≤ 1) :
    easingPattern "easeInOutCubic" t =
      if t < 1/2 then 4 * t * t * t
      else (t - 1) * (2 * t - 2) * (2 * t - 2) + 1 := by
  unfold easingPattern
  simp only [if_pos rfl]
  by_cases hlt : t < 1/2
  · simp only [if_pos hlt]
    by_cases hz : 4 * t * t * t = 0
    · have ht : t = 0 := by
        rcases mul_eq_zero.mp hz with h | h
        · rcases mul_eq_zero.mp h with h' | h'
          · linarith
          · exact h'
        · exact h
      simp [hz, ht]
    · simp [hz]
  · simp only [if_neg hlt]
    have hhalf : (1:ℚ)/2 ≤ t := le_of_not_lt hlt
    have hpos : 0 < (t - 1) * (2 * t - 2) * (2 * t - 2) + 1 := by
      nlinarith [sq_nonneg (2*t - 1), sq_nonneg (t - 1), sq_nonneg (2*t - 2)]
    simp [ne_of_gt hpos]

lemma easing_cubic_nonneg {t : ℚ} (h0 : 0 ≤ t) (h1 : t ≤ 1) :
    0 ≤ easingPattern "easeInOutCubic" t := by
  rw [easing_cubic_eval h0 h1]
  by_cases hlt : t < 1/2
  · simp only [if_pos hlt]
    positivity
  · simp only [if_neg hlt]
    have hhalf : (1:ℚ)/2 ≤ t := le_of_not_lt hlt
    nlinarith [sq_nonneg (2*t - 1), sq_nonneg (t - 1)]

lemma easing_cubic_le_one {t : ℚ} (h0 : 0 ≤ t) (h1 : t ≤ 1) :
    easingPattern "easeInOutCubic" t ≤ 1 := by
  rw [easing_cubic_eval h0 h1]
  by_cases hlt : t < 1/2
  · simp only [if_pos hlt]
    nlinarith [sq_nonneg t]
  · simp only [if_neg hlt]
    have hhalf : (1:ℚ)/2 ≤ t := le_of_not_lt hlt
    nlinarith [sq_nonneg (t - 1)]

lemma easing_cubic_mono {a b : ℚ} (ha : 0 ≤ a) (hab : a ≤ b) (hb : b ≤ 1) :
    easingPattern "easeInOutCubic" a ≤ easingPattern "easeInOutCubic" b := by
  have hb0 : 0 ≤ b := le_trans ha hab
  have ha1 : a ≤ 1 := le_trans hab hb
  rw [easing_cubic_eval ha ha1, easing_cubic_eval hb0 hb]
  by_cases hA : a < 1/2 <;> by_cases hB : b < 1/2
  · simp only [if_pos hA, if_pos hB]
    nlinarith [mul_nonneg ha hb0, sq_nonneg (a + b), sq_nonneg (a - b)]
  · simp only [if_pos hA, if_neg hB]
    have hBhalf : (1:ℚ)/2 ≤ b := le_of_not_lt hB
    have hL : 4 * a * a * a ≤ 1/2 := by nlinarith [sq_nonneg a]
    have hR : (1:ℚ)/2 ≤ (b - 1) * (2 * b - 2) * (2 * b - 2) + 1 := by
      nlinarith [sq_nonneg (2*b - 1), sq_nonneg (b - 1)]
    linarith
  · exact absurd (lt_of_le_of_lt hab hB) hA
  · simp only [if_neg hA, if_neg hB]
    nlinarith [sq_nonneg ((a - 1) + (b - 1)), sq_nonneg (a - b),
      mul_nonneg (mul_nonneg (sub_nonneg.mpr hab) (sub_nonneg.mpr hab))
        (sub_nonneg.mpr hab)]

/-- Every easing name this module can be configured with yields a function
that is monotone on `[0,1]`: the registered cubic by `easing_cubic_mono`, any
other name because the fallback is the identity. -/
lemma easing_mono (name : String) {a b : ℚ} (ha : 0 ≤ a) (hab : a ≤ b)
    (hb : b ≤ 1) : easingPattern name a ≤ easingPattern name b := by
  by_cases hname : name = "easeInOutCubic"
  · subst hname; exact easing_cubic_mono ha hab hb
  · unfold easingPattern
    simp [hname, hab]

/-- Every easing is non-negative on `[0,1]`. -/
lemma easing_nonneg (name : String) {t : ℚ} (h0 : 0 ≤ t) (h1 : t ≤ 1) :
    0 ≤ easingPattern name t := by
  by_cases hname : name = "easeInOutCubic"
  · subst hname; exact easing_cubic_nonneg h0 h1
  · unfold easingPattern
    simp [hname, h0]

/-!
## Tick lemmas -/

lemma tickPercentage_le_one (env : RunEnv) (t : ℚ) :
    tickPercentage env t ≤ 1 := by
  unfold tickPercentage
  by_cases h : (if env.timeToAnimate = 0 then 1 else t / env.timeToAnimate) > 1
  · simp [h]
  · simp only [if_neg h]
    exact le_of_not_lt h

lemma tickPercentage_nonneg (env : RunEnv) {t : ℚ}
    (hT : 0 ≤ env.timeToAnimate) (ht : 0 ≤ t) :
    0 ≤ tickPercentage env t := by
  unfold tickPercentage
  by_cases hz : env.timeToAnimate = 0
  · simp [hz]
  · have hTpos : 0 < env.timeToAnimate := lt_of_le_of_ne hT (Ne.symm hz)
    have hq : 0 ≤ t / env.timeToAnimate := div_nonneg ht (le_of_lt hTpos)
    simp only [if_neg hz]
    by_cases h1 : t / env.timeToAnimate > 1
    · simp [h1]
    · simpa [h1] using hq

lemma tickPercentage_mono (env : RunEnv) {t1 t2 : ℚ}
    (hT : 0 ≤ env.timeToAnimate) (h12 : t1 ≤ t2) :
    tickPercentage env t1 ≤ tickPercentage env t2 := by
  unfold tickPercentage
  by_cases hz : env.timeToAnimate = 0
  · simp [hz]
  · have hTpos : 0 < env.timeToAnimate := lt_of_le_of_ne hT (Ne.symm hz)
    have hdiv : t1 / env.timeToAnimate ≤ t2 / env.timeToAnimate :=
      div_le_div_of_nonneg_right h12 hTpos.le
    simp only [if_neg hz]
    by_cases h1 : t1 / env.timeToAnimate > 1 <;>
      by_cases h2 : t2 / env.timeToAnimate > 1
    · simp [h1, h2]
    · exact absurd (lt_of_lt_of_le h1 hdiv) h2
    · simp only [if_pos h2, if_neg h1]
      exact le_of_not_lt h1
    · simpa [h1, h2] using hdiv

/-- When the clamped percentage lies in `[0,1]`, the sign correction on
`acceleration` is the identity, because no easing is negative there. -/
lemma tickAcceleration_eq (env : RunEnv) {t : ℚ}
    (hT : 0 ≤ env.timeToAnimate) (ht : 0 ≤ t) :
    tickAcceleration env t = easingPattern env.easing (tickPercentage env t) := by
  unfold tickAcceleration
  have h0 := tickPercentage_nonneg env hT ht
  have h1 := tickPercentage_le_one env t
  have : ¬ easingPattern env.easing (tickPercentage env t) < 0 :=
    not_lt_of_le (easing_nonneg env.easing h0 h1)
  simp [this]

/-- For a non-negative duration and a non-negative (downward) distance, the
unfloored `position` of line 80 never decreases as `timeLapsed` grows. -/
lemma tickPosition_mono (env : RunEnv) {t1 t2 : ℚ}
    (hT : 0 ≤ env.timeToAnimate) (hd : 0 ≤ env.distance)
    (ht1 : 0 ≤ t1) (h12 : t1 ≤ t2) :
    tickPosition env t1 ≤ tickPosition env t2 := by
  unfold tickPosition
  have ht2 : 0 ≤ t2 := le_trans ht1 h12
  rw [tickAcceleration_eq env hT ht1, tickAcceleration_eq env hT ht2]
  have hmono := easing_mono env.easing (tickPercentage_nonneg env hT ht1)
    (tickPercentage_mono env hT h12) (tickPercentage_le_one env t2)
  have := mul_le_mul_of_nonneg_left hmono hd
  linarith

/-!
## Run-state invariant -/

/-- Unfolding equation for one more firing of the interval. -/
lemma runTicks_succ (env : RunEnv) (s : RunState) (n : ℕ) :
    runTicks env s (n + 1) =
      if (runTicks env s n).done then runTicks env s n
      else loopAnimateScroll env (runTicks env s n) := rfl

/-- After at least one tick fired, the viewport register holds the floor of
the eased position computed at the state's own `timeLapsed`, and `timeLapsed`
is non-negative. -/
lemma runTicks_invariant (env : RunEnv) {n : ℕ} (hn : 1 ≤ n) :
    (runTicks env (initState env) n).pageYOffset =
      ((⌊tickPosition env (runTicks env (initState env) n).timeLapsed⌋ : ℤ) : ℚ)
    ∧ 0 ≤ (runTicks env (initState env) n).timeLapsed := by
  induction n with
  | zero => exact absurd hn (by norm_num)
  | succ m ih =>
    rw [runTicks_succ]
    by_cases hm : 1 ≤ m
    · obtain ⟨ihoff, iht⟩ := ih hm
      by_cases hdone : (runTicks env (initState env) m).done
      · simp only [if_pos hdone]
        exact ⟨ihoff, iht⟩
      · simp only [if_neg hdone]
        refine ⟨rfl, ?_⟩
        show 0 ≤ (runTicks env (initState env) m).timeLapsed + 16
        linarith
    · have hm0 : m = 0 := by omega
      subst hm0
      have hdone : (runTicks env (initState env) 0).done = false := rfl
      simp only [hdone, if_false]
      refine ⟨rfl, ?_⟩
      show 0 ≤ (runTicks env (initState env) 0).timeLapsed + 16
      norm_num [runTicks, initState]

/-!
## Evaluation of the fixtures

The runs the fixtures start, computed value by value. -/

lemma envTall_eq :
    envTall = ⟨100, 228, 1000, 900, 800, "easeInOutCubic", 32, true⟩ := by
  have h4 : ⌊(4000:ℚ)⌋ = 4000 := by norm_num [Int.floor_eq_iff]
  unfold envTall scrollTo pageTall destTall defaultSettings
  norm_num [getEndLocation, chainOffsetSum, getDocumentHeight, timeToAnimate,
    jsParseInt, h4, max_def]

lemma envFar_eq :
    envFar = ⟨0, 6400, 8000, 400, 400, "easeInOutCubic", 1600, true⟩ := by
  have h4 : ⌊(4000:ℚ)⌋ = 4000 := by norm_num [Int.floor_eq_iff]
  unfold envFar scrollTo pageFar destFar defaultSettings
  norm_num [getEndLocation, chainOffsetSum, getDocumentHeight, timeToAnimate,
    jsParseInt, h4, max_def]

lemma envZero_eq :
    envZero = ⟨200, 200, 2000, 800, 800, "easeInOutCubic", 0, true⟩ := by
  have h4 : ⌊(4000:ℚ)⌋ = 4000 := by norm_num [Int.floor_eq_iff]
  unfold envZero scrollTo pageZero destZero defaultSettings
  norm_num [getEndLocation, chainOffsetSum, getDocumentHeight, timeToAnimate,
    jsParseInt, h4, max_def]

lemma tickPos_tall :
    tickPosition (⟨100, 228, 1000, 900, 800, "easeInOutCubic", 32, true⟩ :
      RunEnv) 16 = 164 := by
  norm_num [tickPosition, tickAcceleration, tickPercentage, easingPattern,
    RunEnv.distance]

lemma tickPos_far1 :
    tickPosition (⟨0, 6400, 8000, 400, 400, "easeInOutCubic", 1600, true⟩ :
      RunEnv) 16 = 16/625 := by
  norm_num [tickPosition, tickAcceleration, tickPercentage, easingPattern,
    RunEnv.distance]

lemma tickPos_far2 :
    tickPosition (⟨0, 6400, 8000, 400, 400, "easeInOutCubic", 1600, true⟩ :
      RunEnv) 32 = 128/625 := by
  norm_num [tickPosition, tickAcceleration, tickPercentage, easingPattern,
    RunEnv.distance]

lemma tickPos_zero :
    tickPosition (⟨200, 200, 2000, 800, 800, "easeInOutCubic", 0, true⟩ :
      RunEnv) 16 = 200 := by
  norm_num [tickPosition, tickAcceleration, tickPercentage, easingPattern,
    RunEnv.distance]

lemma floor_164 : ⌊(164:ℚ)⌋ = 164 := by norm_num [Int.floor_eq_iff]

lemma floor_200 : ⌊(200:ℚ)⌋ = 200 := by norm_num [Int.floor_eq_iff]

lemma floor_far1 : ⌊(16:ℚ)/625⌋ = 0 := by norm_num [Int.floor_eq_iff]

lemma floor_far2 : ⌊(128:ℚ)/625⌋ = 0 := by norm_num [Int.floor_eq_iff]

/-- The first tick of `envTall`'s run applies position 164 and the source's
stop check does NOT fire: 164 ≠ 228, and 800 + 164 < 1000. -/
lemma stop_tall_false :
    stopAnimateScroll (164:ℚ) 228 (164:ℚ) 800 1000 = false := by
  simp only [stopAnimateScroll, Bool.or_eq_false_iff, decide_eq_false_iff_not]
  norm_num

lemma stop_far1_false :
    stopAnimateScroll ((16:ℚ)/625) 6400 (0:ℚ) 400 8000 = false := by
  simp only [stopAnimateScroll, Bool.or_eq_false_iff, decide_eq_false_iff_not]
  norm_num

lemma stop_far2_false :
    stopAnimateScroll ((128:ℚ)/625) 6400 (0:ℚ) 400 8000 = false := by
  simp only [stopAnimateScroll, Bool.or_eq_false_iff, decide_eq_false_iff_not]
  norm_num

lemma stop_zero_true :
    stopAnimateScroll (200:ℚ) 200 (200:ℚ) 800 2000 = true := by
  simp only [stopAnimateScroll, Bool.or_eq_true, decide_eq_true_eq]
  norm_num

lemma tick_tall1 :
    loopAnimateScroll (⟨100, 228, 1000, 900, 800, "easeInOutCubic", 32, true⟩ :
        RunEnv)
      (initState ⟨100, 228, 1000, 900, 800, "easeInOutCubic", 32, true⟩)
      = ⟨16, 164, false, 0, false⟩ := by
  norm_num [loopAnimateScroll, initState, tickPos_tall, floor_164,
    stop_tall_false, RunState.mk.injEq]

lemma tick_far1 :
    loopAnimateScroll (⟨0, 6400, 8000, 400, 400, "easeInOutCubic", 1600, true⟩ :
        RunEnv)
      (initState ⟨0, 6400, 8000, 400, 400, "easeInOutCubic", 1600, true⟩)
      = ⟨16, 0, false, 0, false⟩ := by
  norm_num [loopAnimateScroll, initState, tickPos_far1, floor_far1,
    stop_far1_false, RunState.mk.injEq]

lemma tick_far2 :
    loopAnimateScroll (⟨0, 6400, 8000, 400, 400, "easeInOutCubic", 1600, true⟩ :
        RunEnv) (⟨16, 0, false, 0, false⟩ : RunState)
      = ⟨32, 0, false, 0, false⟩ := by
  norm_num [loopAnimateScroll, tickPos_far2, floor_far2, stop_far2_false,
    RunState.mk.injEq]

lemma tick_zero1 :
    loopAnimateScroll (⟨200, 200, 2000, 800, 800, "easeInOutCubic", 0, true⟩ :
        RunEnv)
      (initState ⟨200, 200, 2000, 800, 800, "easeInOutCubic", 0, true⟩)
      = ⟨16, 200, true, 1, true⟩ := by
  norm_num [loopAnimateScroll, initState, tickPos_zero, floor_200,
    stop_zero_true, RunState.mk.injEq]

/-!
## Claim theorems -/

/-- C3: for every `t ∈ [0,1]`, `easingPattern "easeInOutCubic" t` lies in
`[0,1]`, is monotonically non-decreasing, takes the values 0, 1 and 1/2 at
t = 0, 1 and 1/2, and computes `4t³` for `t < 0.5` and `(t-1)(2t-2)² + 1`
otherwise. -/
theorem easeInOutCubic_properties :
    (∀ t : ℚ, 0 ≤ t → t ≤ 1 →
      easingPattern "easeInOutCubic" t =
        (if t < 1/2 then 4 * t * t * t
         else (t - 1) * (2 * t - 2) * (2 * t - 2) + 1)
      ∧ 0 ≤ easingPattern "easeInOutCubic" t
      ∧ easingPattern "easeInOutCubic" t ≤ 1)
    ∧ (∀ a b : ℚ, 0 ≤ a → a ≤ b → b ≤ 1 →
        easingPattern "easeInOutCubic" a ≤ easingPattern "easeInOutCubic" b)
    ∧ easingPattern "easeInOutCubic" 0 = 0
    ∧ easingPattern "easeInOutCubic" 1 = 1
    ∧ easingPattern "easeInOutCubic" (1/2) = 1/2 := by
  refine ⟨fun t h0 h1 => ⟨easing_cubic_eval h0 h1, easing_cubic_nonneg h0 h1,
      easing_cubic_le_one h0 h1⟩,
    fun a b ha hab hb => easing_cubic_mono ha hab hb, ?_, ?_, ?_⟩
  · rw [easing_cubic_eval le_rfl (by norm_num)]
    norm_num
  · rw [easing_cubic_eval (by norm_num) le_rfl]
    norm_num
  · rw [easing_cubic_eval (by norm_num) (by norm_num)]
    norm_num

/-- C3 witness: the monotonicity clause instantiated at `t = 1/4 ≤ 3/4`. -/
theorem easeInOutCubic_properties_witness :
    0 ≤ (1 : ℚ)/4 ∧ (1 : ℚ)/4 ≤ 3/4 ∧ (3 : ℚ)/4 ≤ 1
    ∧ easingPattern "easeInOutCubic" (1/4) ≤
        easingPattern "easeInOutCubic" (3/4) :=
  ⟨by norm_num, by norm_num, by norm_num,
    easeInOutCubic_properties.2.1 (1/4) (3/4) (by norm_num) (by norm_num)
      (by norm_num)⟩

/-- C7: every easing name other than `"easeInOutCubic"` maps every input `t`
to itself — the fallback `return pattern || time` yields linear progress, so
the function is total and never signals an error. -/
theorem unknown_easing_is_identity (name : String) (t : ℚ)
    (hname : name ≠ "easeInOutCubic") : easingPattern name t = t := by
  unfold easingPattern
  simp [hname]

/-- C7 witness: the unregistered name `"linear"` at `t = 7`. -/
theorem unknown_easing_is_identity_witness :
    "linear" ≠ "easeInOutCubic" ∧ easingPattern "linear" 7 = 7 :=
  ⟨by decide, unknown_easing_is_identity "linear" 7 (by decide)⟩

/-- C10: an element whose `offsetParent` is `null` yields `getEndLocation`
0 — the `if (anchor.offsetParent)` guard skips the accumulation entirely, so
the element's own `offsetTop` is never added. -/
theorem parentless_end_location_zero (anchor : Elem)
    (h : anchor.offsetParent = Option.none) : getEndLocation anchor = 0 := by
  cases anchor with
  | root t => rfl
  | node t p => simp [Elem.offsetParent] at h

/-- C10 witness: a fixed-position-like element with `offsetTop = 7` and no
`offsetParent`. -/
theorem parentless_end_location_zero_witness :
    (Elem.root 7).offsetParent = Option.none
    ∧ getEndLocation (Elem.root 7) = 0 :=
  ⟨rfl, parentless_end_location_zero (Elem.root 7) rfl⟩

/-- C6 counterexample: an element with `offsetTop = 5` and no `offsetParent`.
The claimed "chain sum clamped from below at 0" is 5, but `getEndLocation`
returns 0 because the `if (anchor.offsetParent)` guard never accumulates. -/
theorem end_location_not_clamped_sum_counterexample :
    getEndLocation (Elem.root 5) = 0
    ∧ specEndLocation (Elem.root 5) = 5
    ∧ getEndLocation (Elem.root 5) ≠ specEndLocation (Elem.root 5) := by
  refine ⟨rfl, ?_, ?_⟩
  · norm_num [specEndLocation, chainOffsetSum]
  · rw [show getEndLocation (Elem.root 5) = 0 from rfl]
    norm_num [specEndLocation, chainOffsetSum]

/-- C6 (amended): for every element that HAS an `offsetParent`,
`getEndLocation` is the chain sum clamped from below at 0 (the spec-worded
`specEndLocation`); an element without one yields 0; a negative cumulative
sum always yields 0; and the result is always non-negative. -/
theorem end_location_clamped (anchor : Elem) :
    ((anchor.offsetParent).isSome →
        getEndLocation anchor = specEndLocation anchor)
    ∧ ((anchor.offsetParent) = Option.none → getEndLocation anchor = 0)
    ∧ (chainOffsetSum anchor < 0 → getEndLocation anchor = 0)
    ∧ 0 ≤ getEndLocation anchor := by
  cases anchor with
  | root t =>
    exact ⟨fun h => absurd h (by simp [Elem.offsetParent]), fun _ => rfl,
      fun _ => rfl, le_refl 0⟩
  | node t p =>
    refine ⟨fun _ => rfl, fun h => by simp [Elem.offsetParent] at h, ?_, ?_⟩
    · intro hneg
      unfold getEndLocation
      simp [not_le.mpr hneg]
    · unfold getEndLocation
      by_cases h : chainOffsetSum (Elem.node t p) ≥ 0
      · simp only [if_pos h]
        exact h
      · simp [h]

/-- C6 witness: the clamp clauses at a parented element with positive sum and
one with negative sum. -/
theorem end_location_clamped_witness :
    ((Elem.node 100 (Elem.root 400)).offsetParent).isSome = true
    ∧ getEndLocation (Elem.node 100 (Elem.root 400)) =
        specEndLocation (Elem.node 100 (Elem.root 400))
    ∧ chainOffsetSum (Elem.node 3 (Elem.root (-10))) < 0
    ∧ getEndLocation (Elem.node 3 (Elem.root (-10))) = 0 :=
  ⟨rfl, (end_location_clamped (Elem.node 100 (Elem.root 400))).1 rfl,
    by norm_num [chainOffsetSum],
    (end_location_clamped (Elem.node 3 (Elem.root (-10)))).2.2.1
      (by norm_num [chainOffsetSum])⟩

/-- C8: an anchor whose smooth-scroll data attribute equals `"ignore"` is not
intercepted: `handler` performs no `preventDefault`, never invokes `scrollTo`
and starts no animation timer. -/
theorem ignore_attribute_bypasses (a : Anchor) (resolveId : String → Bool)
    (h : a.smoothScroll = some "ignore") :
    (handler a resolveId).preventDefault = false
    ∧ (handler a resolveId).scrollToCalled = false
    ∧ (handler a resolveId).timerStarted = false := by
  have hres : handler a resolveId = HandlerResult.none := by
    unfold handler
    cases a.href with
    | none => rfl
    | some href =>
      have hguard : ¬(href ≠ "" ∧ (href.take 1 = "#")
          ∧ a.smoothScroll ≠ some "ignore") := by
        rintro ⟨-, -, hne⟩
        exact hne h
      simp [hguard]
  rw [hres]
  exact ⟨rfl, rfl, rfl⟩

/-- C8 witness: a fragment link to `#top` marked `"ignore"`, with a resolver
that would find the element. -/
theorem ignore_attribute_bypasses_witness :
    (Anchor.mk (some "#top") (some "ignore")).smoothScroll = some "ignore"
    ∧ (handler ⟨some "#top", some "ignore"⟩ (fun _ => true)).scrollToCalled
        = false :=
  ⟨rfl, (ignore_attribute_bypasses ⟨some "#top", some "ignore"⟩
    (fun _ => true) rfl).2.1⟩

/-- C9: every interception calls `updateUrl` with the literal `false` as its
`url` argument; `updateUrl` pushes history only when that argument is truthy;
therefore a smooth-scroll navigation never calls `history.pushState`. -/
theorem interception_never_pushes_history :
    (∀ (a : Anchor) (resolveId : String → Bool),
      (handler a resolveId).preventDefault = true →
        ∃ href, (handler a resolveId).updateUrlArgs =
          some (href, JSVal.bool false))
    ∧ (∀ (hasPushState : Bool) (url : JSVal),
        updateUrl hasPushState url = true → url.truthy = true)
    ∧ (∀ hasPushState : Bool,
        updateUrl hasPushState (JSVal.bool false) = false) := by
  refine ⟨?_, ?_, ?_⟩
  · intro a resolveId h
    obtain ⟨hr, ss⟩ := a
    cases hr with
    | none => exact absurd h (by simp [handler, HandlerResult.none])
    | some href =>
      by_cases hguard : href ≠ "" ∧ (href.take 1 = "#") ∧ ss ≠ some "ignore"
      · by_cases hid : resolveId (href.drop 1)
        · exact ⟨href, by simp [handler, hguard, hid]⟩
        · exact absurd h (by simp [handler, hguard, hid, HandlerResult.none])
      · exact absurd h (by simp [handler, hguard, HandlerResult.none])
  · intro hasPushState url h
    unfold updateUrl at h
    rw [Bool.and_eq_true, Bool.or_eq_true] at h
    rcases h.2 with htr | hstr
    · exact htr
    · cases url with
      | bool b => exact absurd hstr (by simp)
      | str s =>
        have hs : s = "true" := by simpa using of_decide_eq_true hstr
        subst hs
        rfl
  · intro hasPushState
    simp [updateUrl, JSVal.truthy]

/-- C9 witness: a resolvable `#a` link with no data attribute is intercepted,
its `updateUrl` call carries `false`, and that call pushes nothing. -/
theorem interception_never_pushes_history_witness :
    (handler ⟨some "#a", Option.none⟩ (fun _ => true)).preventDefault = true
    ∧ (∃ href, (handler ⟨some "#a", Option.none⟩ (fun _ => true)).updateUrlArgs
        = some (href, JSVal.bool false))
    ∧ updateUrl true (JSVal.bool false) = false := by
  have h := interception_never_pushes_history
  have hpd : (handler ⟨some "#a", Option.none⟩
      (fun _ => true)).preventDefault = true := by decide
  exact ⟨hpd, h.1 ⟨some "#a", Option.none⟩ (fun _ => true) hpd, h.2.2 true⟩

/-- C1 counterexample: on the `scrollTo`-started run `envTall`, after the
first tick the claimed termination condition — which compares
`viewportHeight + currentOffset` (900 + 164 ≥ 1000) against the document
height — holds, yet the run does not terminate, because the source's
`stopAnimateScroll` reads `root.innerHeight` (800 + 164 < 1000). -/
theorem termination_condition_viewport_counterexample :
    specStopCond (tickPosition envTall 16) envTall.endLocation
      (runTicks envTall (initState envTall) 1).pageYOffset
      envTall.viewportHeight envTall.documentHeight = true
    ∧ (runTicks envTall (initState envTall) 1).done = false
    ∧ (runTicks envTall (initState envTall) 1).callbackCount = 0 := by
  have hs1 : runTicks envTall (initState envTall) 1 = ⟨16, 164, false, 0, false⟩ :=
    (rfl : runTicks envTall (initState envTall) 1 =
      loopAnimateScroll envTall (initState envTall)).trans
      (by rw [envTall_eq]; exact tick_tall1)
  have hposT : tickPosition envTall 16 = 164 := by
    rw [envTall_eq]
    exact tickPos_tall
  refine ⟨?_, ?_, ?_⟩
  · rw [hs1, hposT, envTall_eq]
    show specStopCond 164 228 164 900 1000 = true
    simp only [specStopCond, Bool.or_eq_true, decide_eq_true_eq]
    norm_num
  · rw [hs1]
  · rw [hs1]

/-- C1 (amended): a tick of `loopAnimateScroll` ends the run exactly when the
source's `stopAnimateScroll` condition holds — computed position equals
`endLocation`, or the just-applied live offset equals `endLocation`, or
`root.innerHeight` (NOT the call-time `viewportHeight`) plus the live offset
reaches `documentHeight`, or the position is negative; on termination the
interval is cleared, the destination focused and the callback (if provided)
invoked; otherwise the run keeps ticking with no callback or focus change. -/
theorem tick_terminates_iff_stop_condition (env : RunEnv) (s : RunState) :
    (loopAnimateScroll env s).done =
      stopAnimateScroll (tickPosition env (s.timeLapsed + 16)) env.endLocation
        ((⌊tickPosition env (s.timeLapsed + 16)⌋ : ℤ) : ℚ)
        env.innerHeight env.documentHeight
    ∧ ((loopAnimateScroll env s).done = true →
        (loopAnimateScroll env s).focused = true
        ∧ (loopAnimateScroll env s).callbackCount =
            s.callbackCount + (if env.hasCallback then 1 else 0))
    ∧ ((loopAnimateScroll env s).done = false →
        (loopAnimateScroll env s).callbackCount = s.callbackCount
        ∧ (loopAnimateScroll env s).focused = s.focused
        ∧ (loopAnimateScroll env s).timeLapsed = s.timeLapsed + 16
        ∧ (loopAnimateScroll env s).pageYOffset =
            ((⌊tickPosition env (s.timeLapsed + 16)⌋ : ℤ) : ℚ)) := by
  have hrepr : loopAnimateScroll env s =
      ⟨s.timeLapsed + 16,
        ((⌊tickPosition env (s.timeLapsed + 16)⌋ : ℤ) : ℚ),
        stopAnimateScroll (tickPosition env (s.timeLapsed + 16)) env.endLocation
          ((⌊tickPosition env (s.timeLapsed + 16)⌋ : ℤ) : ℚ)
          env.innerHeight env.documentHeight,
        s.callbackCount +
          (if stopAnimateScroll (tickPosition env (s.timeLapsed + 16))
              env.endLocation
              ((⌊tickPosition env (s.timeLapsed + 16)⌋ : ℤ) : ℚ)
              env.innerHeight env.documentHeight && env.hasCallback
            then 1 else 0),
        s.focused ||
          stopAnimateScroll (tickPosition env (s.timeLapsed + 16))
            env.endLocation
            ((⌊tickPosition env (s.timeLapsed + 16)⌋ : ℤ) : ℚ)
            env.innerHeight env.documentHeight⟩ := rfl
  rw [hrepr]
  cases hstop : stopAnimateScroll (tickPosition env (s.timeLapsed + 16))
      env.endLocation ((⌊tickPosition env (s.timeLapsed + 16)⌋ : ℤ) : ℚ)
      env.innerHeight env.documentHeight with
  | false =>
    exact ⟨rfl, fun ht => absurd ht (by simp),
      fun _ => ⟨by simp, by simp, rfl, rfl⟩⟩
  | true =>
    exact ⟨rfl, fun _ => ⟨by simp, by simp⟩, fun hf => absurd hf (by simp)⟩

/-- C1 witness: on the `distance = 0` run `envZero`, the first tick stops and
performs the termination effects. -/
theorem tick_terminates_iff_stop_condition_witness :
    (loopAnimateScroll envZero (initState envZero)).done = true
    ∧ (loopAnimateScroll envZero (initState envZero)).focused = true
    ∧ (loopAnimateScroll envZero (initState envZero)).callbackCount =
        (initState envZero).callbackCount +
          (if envZero.hasCallback then 1 else 0) := by
  have hdone : (loopAnimateScroll envZero (initState envZero)).done = true := by
    rw [envZero_eq, tick_zero1]
  have h := tick_terminates_iff_stop_condition envZero (initState envZero)
  obtain ⟨hfoc, hcnt⟩ := h.2.1 hdone
  exact ⟨hdone, hfoc, hcnt⟩

/-- C2 counterexample: a 100px upward scroll (`distance = -100`) at the
default speed 4000 yields `timeToAnimate = -25`ms — negative, and not the
claimed `|distance| / speed * 1000 = 25`. -/
theorem timeToAnimate_negative_counterexample :
    timeToAnimate (-100) 4000 < 0
    ∧ timeToAnimate (-100) 4000 ≠ |(-100 : ℚ)| / 4000 * 1000 := by
  have h4 : ⌊(4000:ℚ)⌋ = 4000 := by norm_num [Int.floor_eq_iff]
  have hval : timeToAnimate (-100) 4000 = -25 := by
    norm_num [timeToAnimate, jsParseInt, h4]
  rw [hval]
  norm_num

/-- C2 (amended): the duration is the SIGNED `distance / speed * 1000`: for a
positive parsed speed it is non-negative exactly when the distance is, and
strictly negative for every upward (negative-distance) run. -/
theorem timeToAnimate_signed (d s : ℚ) (hs : 0 < (jsParseInt s : ℚ)) :
    timeToAnimate d s = d / (jsParseInt s : ℚ) * 1000
    ∧ (0 ≤ timeToAnimate d s ↔ 0 ≤ d)
    ∧ (d < 0 → timeToAnimate d s < 0) := by
  refine ⟨rfl, ?_, ?_⟩
  · unfold timeToAnimate
    constructor
    · intro h
      by_contra hd
      push_neg at hd
      have hneg : d / (jsParseInt s : ℚ) < 0 := div_neg_of_neg_of_pos hd hs
      nlinarith
    · intro h
      have hnn : 0 ≤ d / (jsParseInt s : ℚ) := div_nonneg h hs.le
      nlinarith
  · intro hd
    unfold timeToAnimate
    have hneg : d / (jsParseInt s : ℚ) < 0 := div_neg_of_neg_of_pos hd hs
    nlinarith

/-- C2 witness: the sign equivalence at `distance = -100`, `speed = 4000`. -/
theorem timeToAnimate_signed_witness :
    0 < ((jsParseInt 4000 : ℤ) : ℚ)
    ∧ (0 ≤ timeToAnimate (-100) 4000 ↔ 0 ≤ (-100 : ℚ))
    ∧ ((-100 : ℚ) < 0 → timeToAnimate (-100) 4000 < 0) := by
  have h4 : ⌊(4000:ℚ)⌋ = 4000 := by norm_num [Int.floor_eq_iff]
  have hs : 0 < ((jsParseInt 4000 : ℤ) : ℚ) := by
    norm_num [jsParseInt, h4]
  have h := timeToAnimate_signed (-100) 4000 hs
  exact ⟨hs, h.2.1, h.2.2⟩

/-- C4 counterexample: on the `scrollTo`-started downward run `envFar`
(distance 6400 > 0), ticks 1 and 2 both apply `Math.floor(position) = 0`
(positions 0.0256 and 0.2048) while the run is still live — the applied
position does NOT strictly increase tick-over-tick. -/
theorem applied_position_not_strict_counterexample :
    0 < envFar.distance
    ∧ (runTicks envFar (initState envFar) 1).done = false
    ∧ (runTicks envFar (initState envFar) 2).done = false
    ∧ (runTicks envFar (initState envFar) 2).pageYOffset =
        (runTicks envFar (initState envFar) 1).pageYOffset := by
  have hs1 : runTicks envFar (initState envFar) 1 = ⟨16, 0, false, 0, false⟩ :=
    (rfl : runTicks envFar (initState envFar) 1 =
      loopAnimateScroll envFar (initState envFar)).trans
      (by rw [envFar_eq]; exact tick_far1)
  have hstep := runTicks_succ envFar (initState envFar) 1
  norm_num at hstep
  rw [hs1] at hstep
  have hs2 : runTicks envFar (initState envFar) 2 = ⟨32, 0, false, 0, false⟩ := by
    rw [hstep]
    show loopAnimateScroll envFar ⟨16, 0, false, 0, false⟩ = _
    rw [envFar_eq]
    exact tick_far2
  refine ⟨?_, ?_, ?_, ?_⟩
  · rw [envFar_eq]
    norm_num [RunEnv.distance]
  · rw [hs1]
  · rw [hs2]
  · rw [hs1, hs2]

/-- C4 (amended): for a run with non-negative distance and non-negative
duration, the applied scroll position never DECREASES from one tick to the
next: the floored eased position is monotonically non-decreasing (consecutive
ticks may apply the same pixel when per-tick motion is sub-pixel). -/
theorem applied_position_monotone (env : RunEnv)
    (hT : 0 ≤ env.timeToAnimate) (hd : 0 ≤ env.distance) {n : ℕ}
    (hn : 1 ≤ n) :
    (runTicks env (initState env) n).pageYOffset ≤
      (runTicks env (initState env) (n + 1)).pageYOffset := by
  obtain ⟨hoff, ht⟩ := runTicks_invariant env hn
  rw [runTicks_succ]
  by_cases hdone : (runTicks env (initState env) n).done = true
  · rw [if_pos hdone]
  · rw [if_neg hdone, hoff]
    have hmono := tickPosition_mono env hT hd ht
      (by linarith : (runTicks env (initState env) n).timeLapsed ≤
        (runTicks env (initState env) n).timeLapsed + 16)
    show ((⌊tickPosition env (runTicks env (initState env) n).timeLapsed⌋ :
        ℤ) : ℚ) ≤
      ((⌊tickPosition env
        ((runTicks env (initState env) n).timeLapsed + 16)⌋ : ℤ) : ℚ)
    exact_mod_cast Int.floor_le_floor hmono

/-- C4 witness: monotonicity across the first two ticks of `envFar`. -/
theorem applied_position_monotone_witness :
    0 ≤ envFar.timeToAnimate ∧ 0 ≤ envFar.distance
    ∧ (runTicks envFar (initState envFar) 1).pageYOffset ≤
        (runTicks envFar (initState envFar) 2).pageYOffset := by
  have hT : 0 ≤ envFar.timeToAnimate := by
    rw [envFar_eq]
    norm_num
  have hd : 0 ≤ envFar.distance := by
    rw [envFar_eq]
    norm_num [RunEnv.distance]
  exact ⟨hT, hd, applied_position_monotone envFar hT hd (le_refl 1)⟩

/-- C5: EVERY run whose `distance` is 0 (so `endLocation = startLocation`) —
with or without a callback — stops on its very first tick, because the
computed position immediately equals `endLocation`; the callback, when one
was provided, is invoked exactly once, however many interval firings are
attempted afterwards, and a callback-less run invokes none. -/
theorem distance_zero_terminates_first_tick (env : RunEnv)
    (hdist : env.distance = 0) {n : ℕ} (hn : 1 ≤ n) :
    (runTicks env (initState env) n).done = true
    ∧ (runTicks env (initState env) n).callbackCount =
        (if env.hasCallback then 1 else 0) := by
  have hend : env.endLocation = env.startLocation := by
    unfold RunEnv.distance at hdist
    linarith
  have hposition : ∀ t : ℚ, tickPosition env t = env.startLocation := by
    intro t
    unfold tickPosition
    rw [hdist]
    ring
  have hstop : ∀ t : ℚ, stopAnimateScroll (tickPosition env t) env.endLocation
      ((⌊tickPosition env t⌋ : ℤ) : ℚ) env.innerHeight
      env.documentHeight = true := by
    intro t
    rw [hposition t, hend]
    simp [stopAnimateScroll]
  have htick : ∀ s : RunState, (loopAnimateScroll env s).done = true
      ∧ (loopAnimateScroll env s).callbackCount =
          s.callbackCount + (if env.hasCallback then 1 else 0) := by
    intro s
    constructor
    · show stopAnimateScroll (tickPosition env (s.timeLapsed + 16))
        env.endLocation ((⌊tickPosition env (s.timeLapsed + 16)⌋ : ℤ) : ℚ)
        env.innerHeight env.documentHeight = true
      exact hstop _
    · show s.callbackCount +
        (if stopAnimateScroll (tickPosition env (s.timeLapsed + 16))
            env.endLocation
            ((⌊tickPosition env (s.timeLapsed + 16)⌋ : ℤ) : ℚ)
            env.innerHeight env.documentHeight && env.hasCallback
          then 1 else 0) = s.callbackCount + (if env.hasCallback then 1 else 0)
      rw [hstop _]
      rw [Bool.true_and]
  induction n with
  | zero => exact absurd hn (by norm_num)
  | succ m ih =>
    rw [runTicks_succ]
    by_cases hm : 1 ≤ m
    · obtain ⟨hdone, hcnt⟩ := ih hm
      rw [if_pos hdone]
      exact ⟨hdone, hcnt⟩
    · have hm0 : m = 0 := by omega
      subst hm0
      have h0 : (runTicks env (initState env) 0).done = false := rfl
      rw [if_neg (by rw [h0]; exact Bool.false_ne_true)]
      obtain ⟨h1, h2⟩ := htick (initState env)
      refine ⟨h1, ?_⟩
      show (loopAnimateScroll env (initState env)).callbackCount =
        (if env.hasCallback then 1 else 0)
      rw [h2]
      exact Nat.zero_add _

/-- C5 witness: the `scrollTo`-started `distance = 0` run `envZero` after its
first tick. -/
theorem distance_zero_terminates_first_tick_witness :
    envZero.distance = 0 ∧ envZero.hasCallback = true
    ∧ (runTicks envZero (initState envZero) 1).done = true
    ∧ (runTicks envZero (initState envZero) 1).callbackCount = 1 := by
  have hd : envZero.distance = 0 := by
    rw [envZero_eq]
    norm_num [RunEnv.distance]
  have hcb : envZero.hasCallback = true := by
    rw [envZero_eq]
  have h := distance_zero_terminates_first_tick envZero hd (le_refl 1)
  refine ⟨hd, hcb, h.1, ?_⟩
  rw [h.2, hcb]
  rfl

end SmoothScroll
